import Mathlib

/-!
Verification of `svc-utils-rs`: a shallow embedding of the identity
resolver (`src/extractors/authn.rs`) and the metrics instrumentation
middleware (`src/middleware/metrics.rs`), with theorems settling the
spec's claims about them.
-/

namespace SvcUtils

/-! ## Data model (from `svc_agent` / `svc_authn` public API as used by the code) -/

/-- Rust `svc_agent::AccountId { subject, audience }` (equality by fields). -/
structure AccountId where
  subject : String
  audience : String
deriving DecidableEq, Repr

/-- Decoded claims of a verified token, as consumed by
`decode_jws_compact_with_config::<String>`: `claims.subject()` and
`claims.audience()`. -/
structure Claims where
  subject : String
  audience : String
deriving DecidableEq, Repr

/-- Opaque verification configuration (`svc_authn::jose::ConfigMap`).
The resolver only passes it through to the external verifier. -/
structure AuthnConfig where
  dummy : Unit := ()
deriving DecidableEq, Repr

/-- The rejection value `(StatusCode, Json<Error>)` built by the extractor:
outer HTTP status plus `svc_error::Error::new(code, message, status)`. -/
structure Rejection where
  httpStatus : Nat
  code : String
  message : String
  errStatus : Nat
deriving DecidableEq, Repr

/-- The request data `AccountIdExtractor::from_request_parts` reads:
the `Arc<AuthnConfig>` extension, the `Authorization` header (already
`to_str`-decoded; `None` also covers a header whose bytes fail `to_str`),
the parsed query pairs (output of `url::form_urlencoded::parse`), and the
optional seeded `Arc<AccountId>` extension. -/
structure Parts where
  authnConfig : Option AuthnConfig
  authorizationHeader : Option String
  query : List (String × String)
  seededAccountId : Option AccountId
deriving Repr

/-- Result of one run of the extractor, with its observable side effects:
the returned value or rejection, the token submitted to the external
verifier (if any), and the fields recorded on the current trace span. -/
structure Outcome where
  result : Except Rejection AccountId
  verifierCalled : Option String
  spanRecords : List (String × AccountId)
deriving Repr

/-! ## `AccountIdExtractor::from_request_parts` (src/extractors/authn.rs) -/

/-- Translation of `headers.get("Authorization").and_then(|x| x.to_str().ok()).and_then(|x| x.get("Bearer ".len()..))`:
Rust `str::get(7..)` yields the suffix after the first 7 characters when the
value is at least 7 long, and `None` otherwise — the prefix itself is never
compared against `"Bearer "`. (`to_str` succeeds only on visible-ASCII
header values, so Rust's byte indexing coincides with character indexing.) -/
def bearerToken (header : Option String) : Option String :=
  header.bind fun x =>
    if 7 ≤ x.data.length then some (String.mk (x.data.drop 7)) else none

/-- Translation of `form_urlencoded::parse(query).find(|(key, _)| key == "access_token").map(|(_, val)| val)`. -/
def accessToken (query : List (String × String)) : Option String :=
  (query.find? fun p => p.1 = "access_token").map Prod.snd

/-- The tail of the extractor after a verifier call: `.map_err(|e| { let err
= e.to_string(); (401, Json(Error::new("invalid_authentication", &err,
401))) })?.claims`, then `AccountId::new(claims.subject(),
claims.audience())` and `Span::current().record("account_id", ...)`. -/
def finishVerify (token : String) (r : Except String Claims) : Outcome :=
  match r with
  | .error e =>
      { result := .error ⟨401, "invalid_authentication", e, 401⟩
      , verifierCalled := some token
      , spanRecords := [] }
  | .ok claims =>
      let account : AccountId := ⟨claims.subject, claims.audience⟩
      { result := .ok account
      , verifierCalled := some token
      , spanRecords := [("account_id", account)] }

/-- Rust `AccountIdExtractor::from_request_parts`, parameterized by the external
verifier `decode_jws_compact_with_config` (token and config in, claims or a
stringified error out). -/
def from_request_parts (verify : String → AuthnConfig → Except String Claims)
    (parts : Parts) : Outcome :=
  match parts.authnConfig with
  | none =>
      { result := .error ⟨401, "no_authn_config", "No authn config", 401⟩
      , verifierCalled := none
      , spanRecords := [] }
  | some authn =>
    let auth_header := bearerToken parts.authorizationHeader
    let access_token := accessToken parts.query
    match auth_header, access_token with
    | some token, _ => finishVerify token (verify token authn)
    | none, some token => finishVerify token (verify token authn)
    | none, none =>
      match parts.seededAccountId with
      | none =>
          { result := .error ⟨401, "invalid_authentication", "Invalid authentication", 401⟩
          , verifierCalled := none
          , spanRecords := [] }
      | some id =>
          { result := .ok ⟨"anonymous", id.audience⟩
          , verifierCalled := none
          , spanRecords := [] }

/-- An axum handler wrapped by the extractor: on rejection the framework
returns the rejection and never invokes the inner handler; on success the
handler runs with the extracted `AccountId`. The `Bool` records whether the
inner handler was invoked. -/
def runWithExtractor {α : Type} (verify : String → AuthnConfig → Except String Claims)
    (parts : Parts) (inner : AccountId → α) : Except Rejection α × Bool :=
  match (from_request_parts verify parts).result with
  | .error r => (.error r, false)
  | .ok a => (.ok (inner a), true)

/-! ## Metrics middleware (src/middleware/metrics.rs) -/

/-- Model of `hyper::Method`: the six methods the middleware pre-allocates slots for,
plus the other standard methods (any of which a request may carry). -/
inductive Method where
  | PUT | POST | OPTIONS | GET | PATCH | HEAD
  | DELETE | TRACE | CONNECT
deriving DecidableEq, Repr

/-- Rust `Method::as_ref()`: the method name string used as a label value. -/
def Method.asRef : Method → String
  | .PUT => "PUT"
  | .POST => "POST"
  | .OPTIONS => "OPTIONS"
  | .GET => "GET"
  | .PATCH => "PATCH"
  | .HEAD => "HEAD"
  | .DELETE => "DELETE"
  | .TRACE => "TRACE"
  | .CONNECT => "CONNECT"

/-- Model of `StatusCode::try_from(x)`: the `http` crate accepts exactly the codes in
`[100, 1000)` (`StatusCode::from_u16` errors for `src < 100 || src >= 1000`). -/
def statusTryFrom (x : Nat) : Option Nat :=
  if 100 ≤ x ∧ x < 1000 then some x else none

/-- The `methods` array of `MetricsMiddleware::new`. -/
def methodsList : List Method :=
  [.PUT, .POST, .OPTIONS, .GET, .PATCH, .HEAD]

/-- Translation of `(100..600).filter_map(|x| StatusCode::try_from(x).ok())`. -/
def statusCodesList : List Nat :=
  (List.range' 100 500).filterMap statusTryFrom

/-- Translation of `path.trim_start_matches('/').replace('/', "_")` from
`MetricsMiddleware::new`. -/
def pathLabel (path : String) : String :=
  String.mk ((path.data.dropWhile (· = '/')).map fun c => if c = '/' then '_' else c)

/-- The key set of the `durations` map built in `MetricsMiddleware::new`
(one `OnceCell` per method in `methods`). -/
def durationsKeys : List Method := methodsList

/-- The key set of the `stats` map: `status_codes.flat_map(|s|
methods.iter().map(move |m| ((m, s), OnceCell::new())))`. -/
def statsKeys : List (Method × Nat) :=
  statusCodesList.flatMap fun s => methodsList.map fun m => (m, s)

/-- A route-bound `MetricsMiddleware` as built by `new(service, path)`:
the memoized path label and the pre-allocated slot key sets (HashMaps whose
values all start as empty `OnceCell`s; the dynamic cell contents live in
`MState`). -/
structure Middleware where
  path : String
  durations : List Method
  stats : List (Method × Nat)
deriving Repr

/-- Rust `MetricsMiddleware::new(service, path)` (the wrapped service itself is
irrelevant to the metrics state). -/
def Middleware.new (path : String) : Middleware :=
  { path := pathLabel path
  , durations := durationsKeys
  , stats := statsKeys }

/-- Dynamic metric state shared by all requests of one middleware: for each
slot key, whether its `OnceCell` has been materialized, how many times a
registry registration was performed for it, and the registered metric's
accumulated observations. `ctrLabels` / `durLabels` record the label tuples
passed to `get_metric_with_label_values` at each successful registration. -/
structure MState where
  statusCell : Method × Nat → Bool
  statusReg : Method × Nat → Nat
  statusVal : Method × Nat → Nat
  durCell : Method → Bool
  durObs : Method → Nat
  bodyObs : Method → Nat
  ctrLabels : List (String × String × Nat)
  durLabels : List (String × String)

/-- The state at process start: every cell empty, every counter zero. -/
def initState : MState :=
  { statusCell := fun _ => false
  , statusReg := fun _ => 0
  , statusVal := fun _ => 0
  , durCell := fun _ => false
  , durObs := fun _ => 0
  , bodyObs := fun _ => 0
  , ctrLabels := []
  , durLabels := [] }

/-- Rust `MethodStatusCounters::inc_counter(method, status, path)`: look the
`(method, status)` key up in the pre-allocated map (a miss does nothing);
`get_or_try_init` materializes the counter on first use — registering it
with labels `[path, method, status]` — and reuses the memoized handle
afterwards; a registration failure (`registerOk = false`) is logged, the
cell stays empty and the increment is skipped; otherwise the counter is
incremented. -/
def inc_counter (mw : Middleware) (registerOk : Bool) (st : MState)
    (m : Method) (s : Nat) : MState :=
  if (m, s) ∈ mw.stats then
    if st.statusCell (m, s) then
      { st with statusVal := fun k => if k = (m, s) then st.statusVal k + 1 else st.statusVal k }
    else if registerOk then
      { st with
        statusCell := fun k => if k = (m, s) then true else st.statusCell k
      , statusReg := fun k => if k = (m, s) then st.statusReg k + 1 else st.statusReg k
      , statusVal := fun k => if k = (m, s) then st.statusVal k + 1 else st.statusVal k
      , ctrLabels := st.ctrLabels ++ [(mw.path, m.asRef, s)] }
    else st
  else st

/-- Rust `MetricsMiddleware::start_timer(method)`: look the method up in
`durations`; `get_or_try_init` materializes the histogram (registering it
with labels `[path, method]`) on first use, a failure is logged and yields
no timer; on success a `HistogramTimer` starts. Returns whether a timer is
running plus the new state. -/
def start_timer (mw : Middleware) (registerOk : Bool) (st : MState)
    (m : Method) : Bool × MState :=
  if m ∈ mw.durations then
    if st.durCell m then (true, st)
    else if registerOk then
      (true, { st with
                durCell := fun k => if k = m then true else st.durCell k
              , durLabels := st.durLabels ++ [(mw.path, m.asRef)] })
    else (false, st)
  else (false, st)

/-- The inner handler's response: its status code and an opaque body. -/
structure Response where
  status : Nat
  body : String
deriving DecidableEq, Repr

/-- The body-size block of `MetricsMiddleware::call`: `if let Some(body_size)
= req.body().size_hint().upper()`, call `get_metric_with_label_values` on
`body_size_vec` directly (no memoization) and `observe` on success; a
failure is only logged. -/
def bodyStep (st : MState) (m : Method) (bodyHint : Option Nat) (bodyOk : Bool) : MState :=
  match bodyHint with
  | some _ =>
      if bodyOk then
        { st with bodyObs := fun k => if k = m then st.bodyObs k + 1 else st.bodyObs k }
      else st
  | none => st

/-- Rust `MetricsMiddleware::call`: observe the body size hint when present;
start the duration timer; run the inner handler; `inc_counter` on its
status; drop the timer (recording the elapsed duration when one ran);
return the inner response unchanged. `bodyOk` / `durOk` / `ctrOk` say
whether the corresponding registry call would succeed. -/
def call (mw : Middleware) (st : MState) (m : Method) (bodyHint : Option Nat)
    (bodyOk durOk ctrOk : Bool) (inner : Response) : Response × MState :=
  let st1 := bodyStep st m bodyHint bodyOk
  let tst := start_timer mw durOk st1 m
  let st3 := inc_counter mw ctrOk tst.2 m inner.status
  let st4 :=
    if tst.1 then
      { st3 with durObs := fun k => if k = m then st3.durObs k + 1 else st3.durObs k }
    else st3
  (inner, st4)

/-- Serve a sequence of requests (method, body-size hint, inner response)
through one middleware with a always-succeeding registry. -/
def processRequests (mw : Middleware) (st : MState)
    (reqs : List (Method × Option Nat × Response)) : MState :=
  reqs.foldl (fun st r => (call mw st r.1 r.2.1 true true true r.2.2).2) st

/-- The credential the `match (auth_header, access_token)` arms submit to
the verifier: the header token when extractable, otherwise the query
token, otherwise none. -/
def submittedToken (parts : Parts) : Option String :=
  match bearerToken parts.authorizationHeader, accessToken parts.query with
  | some t, _ => some t
  | none, some t => some t
  | none, none => none

/-! ## Helper lemmas -/

theorem mem_statusCodesList (s : Nat) : s ∈ statusCodesList ↔ 100 ≤ s ∧ s < 600 := by
  simp only [statusCodesList, statusTryFrom, List.mem_filterMap, List.mem_range']
  constructor
  · rintro ⟨a, ⟨i, hi, rfl⟩, h⟩
    split at h
    · cases h; omega
    · cases h
  · rintro ⟨h1, h2⟩
    refine ⟨s, ⟨s - 100, by omega, by omega⟩, ?_⟩
    rw [if_pos ⟨h1, by omega⟩]

theorem mem_statsKeys (m : Method) (s : Nat) :
    (m, s) ∈ statsKeys ↔ m ∈ methodsList ∧ (100 ≤ s ∧ s < 600) := by
  simp only [statsKeys, List.mem_flatMap, List.mem_map, Prod.mk.injEq]
  constructor
  · rintro ⟨a, ha, m', hm', rfl, rfl⟩
    exact ⟨hm', (mem_statusCodesList a).1 ha⟩
  · rintro ⟨hm, hs⟩
    exact ⟨s, (mem_statusCodesList s).2 hs, m, hm, rfl, rfl⟩

/-- When a credential is submitted, the extractor's outcome is exactly the
verifier call's outcome. -/
theorem from_request_parts_submit (verify : String → AuthnConfig → Except String Claims)
    (parts : Parts) (cfg : AuthnConfig) (tok : String)
    (hcfg : parts.authnConfig = some cfg) (h : submittedToken parts = some tok) :
    from_request_parts verify parts = finishVerify tok (verify tok cfg) := by
  unfold submittedToken at h
  unfold from_request_parts
  rw [hcfg]
  rcases hh : bearerToken parts.authorizationHeader with _ | t
  · rcases hq : accessToken parts.query with _ | q
    · rw [hh, hq] at h; cases h
    · rw [hh, hq] at h
      simp only [Option.some.injEq] at h
      subst h
      rfl
  · rw [hh] at h
    simp only [Option.some.injEq] at h
    subst h
    rfl

/-- Whatever the verifier answers, the token submitted to it is recorded. -/
theorem finishVerify_verifierCalled (tok : String) (r : Except String Claims) :
    (finishVerify tok r).verifierCalled = some tok := by
  cases r <;> rfl

/-! ## Claims about the identity resolver -/

/-- C2: for every request that carries both an Authorization header token
and an `access_token` query parameter, the header token is the one
submitted to the external verifier, and the query parameter is ignored
(the outcome is unchanged when the query string is emptied). -/
theorem header_token_takes_precedence
    (verify : String → AuthnConfig → Except String Claims) (parts : Parts)
    (cfg : AuthnConfig) (tok q : String)
    (hcfg : parts.authnConfig = some cfg)
    (htok : bearerToken parts.authorizationHeader = some tok)
    (_hq : accessToken parts.query = some q) :
    (from_request_parts verify parts).verifierCalled = some tok ∧
    from_request_parts verify parts =
      from_request_parts verify { parts with query := [] } := by
  have hsub : submittedToken parts = some tok := by
    unfold submittedToken; rw [htok]
  have hsub2 : submittedToken { parts with query := [] } = some tok := by
    unfold submittedToken
    show (match bearerToken parts.authorizationHeader, accessToken [] with
          | some t, _ => some t
          | none, some t => some t
          | none, none => none) = some tok
    rw [htok]
  rw [from_request_parts_submit verify parts cfg tok hcfg hsub,
      from_request_parts_submit verify { parts with query := [] } cfg tok hcfg hsub2]
  exact ⟨finishVerify_verifierCalled tok _, rfl⟩

/-- Witness for C2 at a concrete request carrying both tokens. -/
theorem header_token_takes_precedence_witness :
    (from_request_parts (fun t _ => .ok ⟨t, "a1"⟩)
        ⟨some ⟨()⟩, some "Bearer h.tok", [("access_token", "q.tok")], none⟩).verifierCalled =
      some "h.tok" ∧
    from_request_parts (fun t _ => .ok ⟨t, "a1"⟩)
        ⟨some ⟨()⟩, some "Bearer h.tok", [("access_token", "q.tok")], none⟩ =
      from_request_parts (fun t _ => .ok ⟨t, "a1"⟩)
        ⟨some ⟨()⟩, some "Bearer h.tok", [], none⟩ :=
  header_token_takes_precedence (fun t _ => .ok ⟨t, "a1"⟩)
    ⟨some ⟨()⟩, some "Bearer h.tok", [("access_token", "q.tok")], none⟩
    ⟨()⟩ "h.tok" "q.tok" rfl (by decide) (by decide)

/-- C3: with no header token and no query token but a seeded trusted
`AccountId` in the request extensions, resolution succeeds with
`AccountId { subject := "anonymous", audience := seeded.audience }` and the
verifier is never invoked. -/
theorem seeded_identity_yields_anonymous
    (verify : String → AuthnConfig → Except String Claims) (parts : Parts)
    (cfg : AuthnConfig) (id : AccountId)
    (hcfg : parts.authnConfig = some cfg)
    (hhdr : bearerToken parts.authorizationHeader = none)
    (hq : accessToken parts.query = none)
    (hseed : parts.seededAccountId = some id) :
    from_request_parts verify parts =
      { result := .ok ⟨"anonymous", id.audience⟩
      , verifierCalled := none
      , spanRecords := [] } := by
  unfold from_request_parts
  rw [hcfg]
  simp only [hhdr, hq, hseed]

/-- Witness for C3: seeded `AccountId {svc, a2}` yields `anonymous.a2`. -/
theorem seeded_identity_yields_anonymous_witness :
    from_request_parts (fun t _ => .ok ⟨t, "x"⟩)
        ⟨some ⟨()⟩, none, [("page", "2")], some ⟨"svc", "a2"⟩⟩ =
      { result := .ok ⟨"anonymous", "a2"⟩, verifierCalled := none, spanRecords := [] } :=
  seeded_identity_yields_anonymous (fun t _ => .ok ⟨t, "x"⟩)
    ⟨some ⟨()⟩, none, [("page", "2")], some ⟨"svc", "a2"⟩⟩
    ⟨()⟩ ⟨"svc", "a2"⟩ rfl rfl (by decide) rfl

/-- C4: with no header token, no query token and no seeded identity, the
extractor rejects with HTTP 401 and machine code `invalid_authentication`,
and the wrapped inner handler is never invoked. -/
theorem no_credentials_rejected {α : Type}
    (verify : String → AuthnConfig → Except String Claims) (parts : Parts)
    (inner : AccountId → α) (cfg : AuthnConfig)
    (hcfg : parts.authnConfig = some cfg)
    (hhdr : bearerToken parts.authorizationHeader = none)
    (hq : accessToken parts.query = none)
    (hseed : parts.seededAccountId = none) :
    runWithExtractor verify parts inner =
      (.error ⟨401, "invalid_authentication", "Invalid authentication", 401⟩, false) := by
  unfold runWithExtractor from_request_parts
  rw [hcfg]
  simp only [hhdr, hq, hseed]

/-- Witness for C4 at a concrete bare request. -/
theorem no_credentials_rejected_witness :
    runWithExtractor (fun t _ => .ok ⟨t, "x"⟩) ⟨some ⟨()⟩, none, [], none⟩
        (fun _ => (42 : Nat)) =
      (.error ⟨401, "invalid_authentication", "Invalid authentication", 401⟩, false) :=
  no_credentials_rejected (fun t _ => .ok ⟨t, "x"⟩) ⟨some ⟨()⟩, none, [], none⟩
    (fun _ => (42 : Nat)) ⟨()⟩ rfl rfl rfl rfl

/-- C5 counterexample: a failing verification does NOT produce the generic
message — the verifier's diagnostic string is echoed as the error body's
message, refuting "the underlying verifier's error diagnostics are never
included in the response sent to the caller". -/
theorem verifier_diagnostics_echoed_counterexample :
    (from_request_parts (fun _ _ => .error "ExpiredSignature: token expired")
        ⟨some ⟨()⟩, some "Bearer abc.def.ghi", [], none⟩).result =
      .error ⟨401, "invalid_authentication", "ExpiredSignature: token expired", 401⟩ ∧
    "ExpiredSignature: token expired" ≠ "Invalid authentication" :=
  ⟨rfl, by decide⟩

/-- C5 amended: a present-but-invalid credential yields 401 with the
generic machine code `invalid_authentication`, but the error body's message
is the verifier's own error string (diagnostics are echoed to the caller,
not replaced by a generic message). -/
theorem invalid_credential_rejected_with_diagnostics
    (verify : String → AuthnConfig → Except String Claims) (parts : Parts)
    (cfg : AuthnConfig) (tok e : String)
    (hcfg : parts.authnConfig = some cfg)
    (htok : submittedToken parts = some tok)
    (he : verify tok cfg = .error e) :
    (from_request_parts verify parts).result =
      .error ⟨401, "invalid_authentication", e, 401⟩ := by
  rw [from_request_parts_submit verify parts cfg tok hcfg htok, he]
  rfl

/-- Witness for the amended C5 at a concrete expired token. -/
theorem invalid_credential_rejected_with_diagnostics_witness :
    (from_request_parts (fun _ _ => .error "InvalidSignature")
        ⟨some ⟨()⟩, none, [("access_token", "tkn")], none⟩).result =
      .error ⟨401, "invalid_authentication", "InvalidSignature", 401⟩ :=
  invalid_credential_rejected_with_diagnostics (fun _ _ => .error "InvalidSignature")
    ⟨some ⟨()⟩, none, [("access_token", "tkn")], none⟩
    ⟨()⟩ "tkn" "InvalidSignature" rfl (by decide) rfl

/-- C6: a bearer token the verifier accepts with claims (subject, audience)
resolves to `AccountId { subject, audience }`, and that account id is
recorded on the current trace span under the field name `account_id`. -/
theorem valid_bearer_resolves_and_records_span
    (verify : String → AuthnConfig → Except String Claims) (parts : Parts)
    (cfg : AuthnConfig) (tok sub aud : String)
    (hcfg : parts.authnConfig = some cfg)
    (htok : bearerToken parts.authorizationHeader = some tok)
    (hv : verify tok cfg = .ok ⟨sub, aud⟩) :
    (from_request_parts verify parts).result = .ok ⟨sub, aud⟩ ∧
    (from_request_parts verify parts).spanRecords = [("account_id", ⟨sub, aud⟩)] := by
  have hsub : submittedToken parts = some tok := by
    unfold submittedToken; rw [htok]
  rw [from_request_parts_submit verify parts cfg tok hcfg hsub, hv]
  exact ⟨rfl, rfl⟩

/-- Witness for C6 with claims `(u1, a1)`. -/
theorem valid_bearer_resolves_and_records_span_witness :
    (from_request_parts (fun _ _ => .ok ⟨"u1", "a1"⟩)
        ⟨some ⟨()⟩, some "Bearer tok123", [], none⟩).result = .ok ⟨"u1", "a1"⟩ ∧
    (from_request_parts (fun _ _ => .ok ⟨"u1", "a1"⟩)
        ⟨some ⟨()⟩, some "Bearer tok123", [], none⟩).spanRecords =
      [("account_id", ⟨"u1", "a1"⟩)] :=
  valid_bearer_resolves_and_records_span (fun _ _ => .ok ⟨"u1", "a1"⟩)
    ⟨some ⟨()⟩, some "Bearer tok123", [], none⟩
    ⟨()⟩ "tok123" "u1" "a1" rfl (by decide) rfl

/-- C10: an Authorization header value shorter than the 7 characters of
`"Bearer "` is treated exactly like an absent header (the resolver falls
through to the query-parameter / seeded-identity paths); a value of at
least 7 characters has everything after its first 7 characters submitted
to the verifier, with no check that the prefix actually is `"Bearer "`. -/
theorem bearer_prefix_sliced_not_checked
    (verify : String → AuthnConfig → Except String Claims) (parts : Parts)
    (s : String) (hhdr : parts.authorizationHeader = some s) :
    (s.data.length < 7 →
      from_request_parts verify parts =
        from_request_parts verify { parts with authorizationHeader := none }) ∧
    (7 ≤ s.data.length → ∀ cfg, parts.authnConfig = some cfg →
      (from_request_parts verify parts).verifierCalled =
        some (String.mk (s.data.drop 7))) := by
  constructor
  · intro hlen
    have hb : bearerToken parts.authorizationHeader = none := by
      rw [hhdr]
      show (if 7 ≤ s.data.length then some (String.mk (s.data.drop 7)) else none) = none
      rw [if_neg (by omega)]
    unfold from_request_parts
    rcases hcfg : parts.authnConfig with _ | cfg
    · rfl
    · simp only [hb]
      rfl
  · intro hlen cfg hcfg
    have hb : bearerToken parts.authorizationHeader = some (String.mk (s.data.drop 7)) := by
      rw [hhdr]
      show (if 7 ≤ s.data.length then some (String.mk (s.data.drop 7)) else none) =
        some (String.mk (s.data.drop 7))
      rw [if_pos hlen]
    have hsub : submittedToken parts = some (String.mk (s.data.drop 7)) := by
      unfold submittedToken; rw [hb]
    rw [from_request_parts_submit verify parts cfg _ hcfg hsub]
    exact finishVerify_verifierCalled _ _

/-- Witness for C10: the short value `"Bear"` falls through to the seeded
identity, and the non-Bearer value `"Basic abcd"` has its suffix after 7
characters (`"bcd"`) submitted to the verifier. -/
theorem bearer_prefix_sliced_not_checked_witness :
    (from_request_parts (fun t _ => .ok ⟨t, "a"⟩)
        ⟨some ⟨()⟩, some "Bear", [], some ⟨"svc", "a3"⟩⟩ =
      from_request_parts (fun t _ => .ok ⟨t, "a"⟩)
        ⟨some ⟨()⟩, none, [], some ⟨"svc", "a3"⟩⟩) ∧
    (from_request_parts (fun t _ => .ok ⟨t, "a"⟩)
        ⟨some ⟨()⟩, some "Basic abcd", [], none⟩).verifierCalled = some "bcd" :=
  ⟨(bearer_prefix_sliced_not_checked (fun t _ => .ok ⟨t, "a"⟩)
      ⟨some ⟨()⟩, some "Bear", [], some ⟨"svc", "a3"⟩⟩ "Bear" rfl).1 (by decide),
   (bearer_prefix_sliced_not_checked (fun t _ => .ok ⟨t, "a"⟩)
      ⟨some ⟨()⟩, some "Basic abcd", [], none⟩ "Basic abcd" rfl).2 (by decide) ⟨()⟩ rfl⟩

/-! ## Helper lemmas about the metrics state transformers -/

theorem bodyStep_statusCell (st : MState) (m : Method) (h : Option Nat) (ok : Bool) :
    (bodyStep st m h ok).statusCell = st.statusCell := by
  unfold bodyStep; repeat' split
  all_goals rfl

theorem bodyStep_statusReg (st : MState) (m : Method) (h : Option Nat) (ok : Bool) :
    (bodyStep st m h ok).statusReg = st.statusReg := by
  unfold bodyStep; repeat' split
  all_goals rfl

theorem bodyStep_statusVal (st : MState) (m : Method) (h : Option Nat) (ok : Bool) :
    (bodyStep st m h ok).statusVal = st.statusVal := by
  unfold bodyStep; repeat' split
  all_goals rfl

theorem bodyStep_durCell (st : MState) (m : Method) (h : Option Nat) (ok : Bool) :
    (bodyStep st m h ok).durCell = st.durCell := by
  unfold bodyStep; repeat' split
  all_goals rfl

theorem bodyStep_durObs (st : MState) (m : Method) (h : Option Nat) (ok : Bool) :
    (bodyStep st m h ok).durObs = st.durObs := by
  unfold bodyStep; repeat' split
  all_goals rfl

theorem bodyStep_fail (st : MState) (m : Method) (h : Option Nat) :
    bodyStep st m h false = st := by
  unfold bodyStep; split
  · rfl
  · rfl

theorem start_timer_snd_statusCell (mw : Middleware) (ok : Bool) (st : MState) (m : Method) :
    ((start_timer mw ok st m).2).statusCell = st.statusCell := by
  unfold start_timer; repeat' split
  all_goals rfl

theorem start_timer_snd_statusReg (mw : Middleware) (ok : Bool) (st : MState) (m : Method) :
    ((start_timer mw ok st m).2).statusReg = st.statusReg := by
  unfold start_timer; repeat' split
  all_goals rfl

theorem start_timer_snd_statusVal (mw : Middleware) (ok : Bool) (st : MState) (m : Method) :
    ((start_timer mw ok st m).2).statusVal = st.statusVal := by
  unfold start_timer; repeat' split
  all_goals rfl

theorem start_timer_snd_bodyObs (mw : Middleware) (ok : Bool) (st : MState) (m : Method) :
    ((start_timer mw ok st m).2).bodyObs = st.bodyObs := by
  unfold start_timer; repeat' split
  all_goals rfl

theorem start_timer_snd_durObs (mw : Middleware) (ok : Bool) (st : MState) (m : Method) :
    ((start_timer mw ok st m).2).durObs = st.durObs := by
  unfold start_timer; repeat' split
  all_goals rfl

/-- A failed histogram registration yields no timer and leaves the state
untouched. -/
theorem start_timer_fail (mw : Middleware) (st : MState) (m : Method)
    (h : st.durCell m = false) :
    start_timer mw false st m = (false, st) := by
  unfold start_timer
  rw [h]
  split
  · rfl
  · rfl

theorem inc_counter_bodyObs (mw : Middleware) (ok : Bool) (st : MState) (m : Method) (s : Nat) :
    (inc_counter mw ok st m s).bodyObs = st.bodyObs := by
  unfold inc_counter; repeat' split
  all_goals rfl

theorem inc_counter_durObs (mw : Middleware) (ok : Bool) (st : MState) (m : Method) (s : Nat) :
    (inc_counter mw ok st m s).durObs = st.durObs := by
  unfold inc_counter; repeat' split
  all_goals rfl

/-- A failed counter registration leaves the state untouched. -/
theorem inc_counter_fail (mw : Middleware) (st : MState) (m : Method) (s : Nat)
    (h : st.statusCell (m, s) = false) :
    inc_counter mw false st m s = st := by
  unfold inc_counter
  rw [h]
  split
  · rfl
  · rfl

/-- One request whose key's `OnceCell` is still empty (with a working
registry): the counter is registered exactly once more and incremented. -/
theorem call_materializes (mw : Middleware) (st : MState) (m : Method)
    (hint : Option Nat) (bOk dOk : Bool) (r : Response)
    (hmem : (m, r.status) ∈ mw.stats)
    (hcell : st.statusCell (m, r.status) = false) :
    ((call mw st m hint bOk dOk true r).2).statusCell (m, r.status) = true ∧
    ((call mw st m hint bOk dOk true r).2).statusReg (m, r.status) =
      st.statusReg (m, r.status) + 1 ∧
    ((call mw st m hint bOk dOk true r).2).statusVal (m, r.status) =
      st.statusVal (m, r.status) + 1 := by
  refine ⟨?_, ?_, ?_⟩ <;>
    (simp only [call]
     split <;>
       simp [inc_counter, hmem, start_timer_snd_statusCell, bodyStep_statusCell,
         start_timer_snd_statusReg, bodyStep_statusReg,
         start_timer_snd_statusVal, bodyStep_statusVal, hcell])

/-- One request whose key's `OnceCell` is already materialized: the counter
is incremented with no further registration, whatever `ctrOk` says. -/
theorem call_reuses (mw : Middleware) (st : MState) (m : Method)
    (hint : Option Nat) (bOk dOk cOk : Bool) (r : Response)
    (hmem : (m, r.status) ∈ mw.stats)
    (hcell : st.statusCell (m, r.status) = true) :
    ((call mw st m hint bOk dOk cOk r).2).statusCell (m, r.status) = true ∧
    ((call mw st m hint bOk dOk cOk r).2).statusReg (m, r.status) =
      st.statusReg (m, r.status) ∧
    ((call mw st m hint bOk dOk cOk r).2).statusVal (m, r.status) =
      st.statusVal (m, r.status) + 1 := by
  refine ⟨?_, ?_, ?_⟩ <;>
    (simp only [call]
     split <;>
       simp [inc_counter, hmem, start_timer_snd_statusCell, bodyStep_statusCell,
         start_timer_snd_statusReg, bodyStep_statusReg,
         start_timer_snd_statusVal, bodyStep_statusVal, hcell])

theorem processRequests_cons (mw : Middleware) (st : MState)
    (x : Method × Option Nat × Response) (l : List (Method × Option Nat × Response)) :
    processRequests mw st (x :: l) =
      processRequests mw ((call mw st x.1 x.2.1 true true true x.2.2).2) l := rfl

/-- Once a key's counter is materialized, `k` further requests to it add
`k` to the counter and perform no registration. -/
theorem processRequests_replicate_full (mw : Middleware) (m : Method) (s : Nat)
    (hmem : (m, s) ∈ mw.stats) (k : Nat) :
    ∀ st : MState, st.statusCell (m, s) = true →
      ((processRequests mw st (List.replicate k (m, none, ⟨s, ""⟩))).statusCell (m, s) = true ∧
       (processRequests mw st (List.replicate k (m, none, ⟨s, ""⟩))).statusReg (m, s) =
         st.statusReg (m, s) ∧
       (processRequests mw st (List.replicate k (m, none, ⟨s, ""⟩))).statusVal (m, s) =
         st.statusVal (m, s) + k) := by
  induction k with
  | zero => exact fun st h => ⟨h, rfl, rfl⟩
  | succ k ih =>
    intro st h
    have hstep := call_reuses mw st m none true true true ⟨s, ""⟩ hmem h
    have h2' : ((call mw st m none true true true ⟨s, ""⟩).2).statusReg (m, s) =
        st.statusReg (m, s) := hstep.2.1
    have h3' : ((call mw st m none true true true ⟨s, ""⟩).2).statusVal (m, s) =
        st.statusVal (m, s) + 1 := hstep.2.2
    rw [List.replicate_succ, processRequests_cons]
    obtain ⟨h1, h2, h3⟩ := ih _ hstep.1
    refine ⟨h1, ?_, ?_⟩
    · rw [h2, h2']
    · rw [h3, h3']
      omega

/-! ## Claims about the metrics middleware -/

/-- C1: for a key inside the pre-allocated universe, N requests producing
that (method, status) key register the underlying counter with the global
registry exactly once (zero times when N = 0; the first request
materializes it, every later request reuses the memoized handle), and the
counter's final value is N. -/
theorem counter_registered_once_and_counts
    (path : String) (m : Method) (s : Nat) (n : Nat)
    (hm : m ∈ methodsList) (hs : 100 ≤ s ∧ s < 600) :
    (processRequests (Middleware.new path) initState
        (List.replicate n (m, none, ⟨s, ""⟩))).statusReg (m, s) =
      (if n = 0 then 0 else 1) ∧
    (processRequests (Middleware.new path) initState
        (List.replicate n (m, none, ⟨s, ""⟩))).statusVal (m, s) = n := by
  have hmem : (m, s) ∈ (Middleware.new path).stats := (mem_statsKeys m s).2 ⟨hm, hs⟩
  cases n with
  | zero => exact ⟨rfl, rfl⟩
  | succ k =>
    rw [List.replicate_succ, processRequests_cons]
    obtain ⟨hc, hr, hv⟩ :=
      call_materializes (Middleware.new path) initState m none true true ⟨s, ""⟩ hmem rfl
    have hr' : ((call (Middleware.new path) initState m none true true true ⟨s, ""⟩).2).statusReg
        (m, s) = initState.statusReg (m, s) + 1 := hr
    have hv' : ((call (Middleware.new path) initState m none true true true ⟨s, ""⟩).2).statusVal
        (m, s) = initState.statusVal (m, s) + 1 := hv
    obtain ⟨h1, h2, h3⟩ :=
      processRequests_replicate_full (Middleware.new path) m s hmem k _ hc
    constructor
    · rw [h2, hr']
      simp [initState]
    · rw [h3, hv']
      simp [initState]
      omega

/-- Witness for C1: three GET 200 requests to a fresh route register once
and count to three. -/
theorem counter_registered_once_and_counts_witness :
    (processRequests (Middleware.new "/rooms") initState
        (List.replicate 3 (.GET, none, ⟨200, ""⟩))).statusReg (.GET, 200) =
      (if 3 = 0 then 0 else 1) ∧
    (processRequests (Middleware.new "/rooms") initState
        (List.replicate 3 (.GET, none, ⟨200, ""⟩))).statusVal (.GET, 200) = 3 :=
  counter_registered_once_and_counts "/rooms" .GET 200 3 (by decide) (by omega)

/-- C7 counterexample: the claim's status universe `[100, 599)` is wrong —
`MetricsMiddleware::new` iterates `(100..600)` and `StatusCode::try_from`
accepts 599, so a pre-allocated slot exists for the key `(GET, 599)` even
though `599` lies outside `[100, 599)`. -/
theorem slot_universe_counterexample :
    (Method.GET, 599) ∈ (Middleware.new "/rooms").stats ∧ ¬(599 < 599) :=
  ⟨(mem_statsKeys .GET 599).2 ⟨by decide, by omega⟩, by omega⟩

/-- C7 amended: at construction time a slot exists exactly for every method
in {PUT, POST, OPTIONS, GET, PATCH, HEAD} (durations) and every pair of
such a method with a valid status code in `[100, 600)` (stats); no slot
exists for any key outside these universes. -/
theorem preallocated_slot_universes (path : String) (m : Method) (s : Nat) :
    ((m, s) ∈ (Middleware.new path).stats ↔
      m ∈ [Method.PUT, .POST, .OPTIONS, .GET, .PATCH, .HEAD] ∧ (100 ≤ s ∧ s < 600)) ∧
    (m ∈ (Middleware.new path).durations ↔
      m ∈ [Method.PUT, .POST, .OPTIONS, .GET, .PATCH, .HEAD]) :=
  ⟨mem_statsKeys m s, Iff.rfl⟩

/-- Witness for the amended C7 at the concrete keys (GET, 200) and GET. -/
theorem preallocated_slot_universes_witness :
    ((Method.GET, 200) ∈ (Middleware.new "/w").stats ↔
      Method.GET ∈ [Method.PUT, .POST, .OPTIONS, .GET, .PATCH, .HEAD] ∧
        (100 ≤ 200 ∧ 200 < 600)) ∧
    (Method.GET ∈ (Middleware.new "/w").durations ↔
      Method.GET ∈ [Method.PUT, .POST, .OPTIONS, .GET, .PATCH, .HEAD]) :=
  preallocated_slot_universes "/w" .GET 200

/-- C8 counterexample: the route `/rooms/:id` is NOT labeled `rooms_id` —
`trim_start_matches('/')` plus `replace('/', "_")` keeps the `:` of the
path parameter, producing `rooms_:id`. -/
theorem route_label_counterexample :
    (Middleware.new "/rooms/:id").path = "rooms_:id" ∧
    (Middleware.new "/rooms/:id").path ≠ "rooms_id" := by
  exact ⟨rfl, by decide⟩

set_option maxRecDepth 400000 in
/-- C8 amended: the route string is transformed by dropping its leading
slashes and replacing every remaining `/` with `_` (other characters,
`:` included, are kept), so route `/rooms/:id` produces label `rooms_:id`;
the first GET 200 request registers the duration histogram under
`("rooms_:id", GET)` and the counter under `("rooms_:id", GET, 200)` with
value 1, and a second such request increments that counter to 2 with no
further registration. -/
theorem route_label_underscore_join :
    (Middleware.new "/rooms/:id").path = "rooms_:id" ∧
    (processRequests (Middleware.new "/rooms/:id") initState
        [(.GET, none, ⟨200, ""⟩)]).durLabels = [("rooms_:id", "GET")] ∧
    (processRequests (Middleware.new "/rooms/:id") initState
        [(.GET, none, ⟨200, ""⟩)]).ctrLabels = [("rooms_:id", "GET", 200)] ∧
    (processRequests (Middleware.new "/rooms/:id") initState
        [(.GET, none, ⟨200, ""⟩)]).statusVal (.GET, 200) = 1 ∧
    (processRequests (Middleware.new "/rooms/:id") initState
        (List.replicate 2 (.GET, none, ⟨200, ""⟩))).durLabels = [("rooms_:id", "GET")] ∧
    (processRequests (Middleware.new "/rooms/:id") initState
        (List.replicate 2 (.GET, none, ⟨200, ""⟩))).ctrLabels = [("rooms_:id", "GET", 200)] ∧
    (processRequests (Middleware.new "/rooms/:id") initState
        (List.replicate 2 (.GET, none, ⟨200, ""⟩))).statusVal (.GET, 200) = 2 := by
  refine ⟨rfl, ?_, ?_, ?_, ?_, ?_, ?_⟩ <;> decide

/-- C9: the middleware always returns the inner handler's response
unchanged, whatever registry calls fail; and a failed materialization of
the body-size, duration or counter handle skips exactly that observation
(the body-size count, the duration count, the counter value and its
registration count stay as they were). -/
theorem metrics_failure_never_affects_response
    (mw : Middleware) (st : MState) (m : Method) (hint : Option Nat)
    (bOk dOk cOk : Bool) (inner : Response) :
    (call mw st m hint bOk dOk cOk inner).1 = inner ∧
    (bOk = false → ((call mw st m hint bOk dOk cOk inner).2).bodyObs = st.bodyObs) ∧
    (dOk = false → st.durCell m = false →
      ((call mw st m hint bOk dOk cOk inner).2).durObs = st.durObs) ∧
    (cOk = false → st.statusCell (m, inner.status) = false →
      ((call mw st m hint bOk dOk cOk inner).2).statusVal = st.statusVal ∧
      ((call mw st m hint bOk dOk cOk inner).2).statusReg = st.statusReg) := by
  refine ⟨rfl, ?_, ?_, ?_⟩
  · intro hb
    subst hb
    simp only [call, bodyStep_fail]
    split <;> simp only [inc_counter_bodyObs, start_timer_snd_bodyObs]
  · intro hd hc
    subst hd
    have h1 : (bodyStep st m hint bOk).durCell m = false := by
      rw [bodyStep_durCell]; exact hc
    simp only [call, start_timer_fail mw (bodyStep st m hint bOk) m h1]
    simp [inc_counter_durObs, bodyStep_durObs]
  · intro hcok hc
    subst hcok
    have h2 : ((start_timer mw dOk (bodyStep st m hint bOk) m).2).statusCell (m, inner.status)
        = false := by
      rw [start_timer_snd_statusCell, bodyStep_statusCell]; exact hc
    have h3 := inc_counter_fail mw ((start_timer mw dOk (bodyStep st m hint bOk) m).2)
      m inner.status h2
    refine ⟨?_, ?_⟩ <;>
      (simp only [call, h3]
       split <;>
         simp only [start_timer_snd_statusVal, start_timer_snd_statusReg,
           bodyStep_statusVal, bodyStep_statusReg])

/-- Witness for C9: with every registry call failing on a fresh middleware,
the caller still gets the inner handler's response and no observation is
recorded. -/
theorem metrics_failure_never_affects_response_witness :
    (call (Middleware.new "/x") initState .GET (some 5) false false false ⟨200, "ok"⟩).1 =
      ⟨200, "ok"⟩ ∧
    ((call (Middleware.new "/x") initState .GET (some 5) false false false ⟨200, "ok"⟩).2).bodyObs =
      initState.bodyObs ∧
    ((call (Middleware.new "/x") initState .GET (some 5) false false false ⟨200, "ok"⟩).2).durObs =
      initState.durObs ∧
    ((call (Middleware.new "/x") initState .GET (some 5) false false false ⟨200, "ok"⟩).2).statusVal =
      initState.statusVal :=
  ⟨(metrics_failure_never_affects_response (Middleware.new "/x") initState .GET (some 5)
      false false false ⟨200, "ok"⟩).1,
   (metrics_failure_never_affects_response (Middleware.new "/x") initState .GET (some 5)
      false false false ⟨200, "ok"⟩).2.1 rfl,
   (metrics_failure_never_affects_response (Middleware.new "/x") initState .GET (some 5)
      false false false ⟨200, "ok"⟩).2.2.1 rfl rfl,
   ((metrics_failure_never_affects_response (Middleware.new "/x") initState .GET (some 5)
      false false false ⟨200, "ok"⟩).2.2.2 rfl rfl).1⟩

end SvcUtils
